import Mathlib

/-!
Shallow embedding of the provider-detection engine of the langspec-gateway
repository (src/provider/{mod,registry,openai,bedrock}.rs and
src/pipeline/views.rs), together with theorems settling the claims about it.

Conventions of the embedding:
* Rust `&str` becomes `String`; `str::starts_with`, `str::ends_with` and
  `str::contains` become the list-based functions `strStartsWith`,
  `strEndsWith`, `strContains` below.
* Header values are raw byte lists (`List Nat`, each entry < 256).  The
  `http` crate's `HeaderValue::to_str` succeeds exactly when every byte is
  visible ASCII or TAB; `headerValueToStr` models that.
* `HeaderMap` stores names case-insensitively; the model keeps names
  already lowercased and lowercases the lookup key (`headersGet`).
* `str::to_lowercase` is modelled by `rustToLowercase` (ASCII lowering).
  Every string it is applied to in the detection path came out of
  `HeaderValue::to_str`, hence is visible ASCII, where Unicode lowering
  and ASCII lowering agree.
* The registry's logging (`info!`) and the conflict-diagnostic
  accumulation list have no effect on the returned value and are omitted.
-/

/-- Rust `str::starts_with` (substring prefix test). -/
def strStartsWith (s pre : String) : Bool :=
  pre.toList.isPrefixOf s.toList

/-- Rust `str::ends_with` (substring suffix test). -/
def strEndsWith (s suf : String) : Bool :=
  suf.toList.isSuffixOf s.toList

/-- Auxiliary: does `pat` occur as a contiguous run inside `l`? -/
def containsAux (pat : List Char) : List Char → Bool
  | [] => pat.isEmpty
  | c :: cs => pat.isPrefixOf (c :: cs) || containsAux pat cs

/-- Rust `str::contains` (contiguous substring test). -/
def strContains (s pat : String) : Bool :=
  containsAux pat.toList s.toList

/-- ASCII lowering of one character (`A`..`Z` map to `a`..`z`). -/
def asciiLowerChar (c : Char) : Char :=
  if 'A' ≤ c ∧ c ≤ 'Z' then Char.ofNat (c.toNat + 32) else c

/-- Models Rust `str::to_lowercase`.  On the visible-ASCII strings that
reach it in this code base this agrees with Unicode lowering. -/
def rustToLowercase (s : String) : String :=
  String.mk (s.toList.map asciiLowerChar)

/-- The `http::HeaderValue::to_str` check accepts a byte iff it is visible ASCII
(32..126) or TAB (9). -/
def isVisibleAscii (b : Nat) : Bool :=
  (decide (32 ≤ b) && decide (b < 127)) || decide (b = 9)

/-- Models `HeaderValue::to_str().ok()`: `some` of the decoded string when
every byte is visible ASCII or TAB, otherwise `none`. -/
def headerValueToStr (bs : List Nat) : Option String :=
  if bs.all isVisibleAscii then some (String.mk (bs.map Char.ofNat)) else none

/-- Bytes of an ASCII string, for building concrete header maps. -/
def strBytes (s : String) : List Nat :=
  s.toList.map Char.toNat

/-- Embeds `ProviderKind` from src/provider/mod.rs. -/
inductive ProviderKind where
  | OpenAI
  | Bedrock
  | Unknown
deriving DecidableEq, Repr

/-- Embeds `Confidence` from src/provider/mod.rs; Rust derives `Ord` following
declaration order `Low < Medium < High`. -/
inductive Confidence where
  | Low
  | Medium
  | High
deriving DecidableEq, Repr

/-- Rank realising the derived `Ord` on `Confidence`. -/
def Confidence.rank : Confidence → Nat
  | .Low => 0
  | .Medium => 1
  | .High => 2

/-- Embeds `DetectionResult` from src/provider/mod.rs. -/
structure DetectionResult where
  kind : ProviderKind
  confidence : Confidence
  reason : String
  signal : String
deriving DecidableEq, Repr

/-- Embeds `DetectionResult::is_decisive`: High confidence triggers early exit. -/
def DetectionResult.is_decisive (r : DetectionResult) : Bool :=
  r.confidence = Confidence.High

/-- Embeds `DetectionResult::is_better_than`: strictly greater confidence. -/
def DetectionResult.is_better_than (r other : DetectionResult) : Bool :=
  other.confidence.rank < r.confidence.rank

/-- Embeds `RequestView` from src/pipeline/views.rs: method, URI path, and the
header map (names stored lowercased, values as raw bytes). -/
structure RequestView where
  method : String
  path : String
  headers : List (String × List Nat)

/-- Models `HeaderMap::get`: first entry whose (lowercased) name matches
the lowercased key. -/
def RequestView.headersGet (rv : RequestView) (key : String) : Option (List Nat) :=
  (rv.headers.find? (fun p => p.1 == rustToLowercase key)).map Prod.snd

/-- Embeds `RequestView::header`: `headers.get(key).and_then(|h| h.to_str().ok())`. -/
def RequestView.header (rv : RequestView) (key : String) : Option String :=
  (rv.headersGet key).bind headerValueToStr

/-- Embeds `RequestView::host`. -/
def RequestView.host (rv : RequestView) : Option String :=
  rv.header "host"

/-- Embeds `RequestView::authorization`. -/
def RequestView.authorization (rv : RequestView) : Option String :=
  rv.header "authorization"

/-- Embeds `RequestView::has_aws_sigv4`. -/
def RequestView.has_aws_sigv4 (rv : RequestView) : Bool :=
  ((rv.authorization.map (fun a => strStartsWith a "AWS4-HMAC-SHA256")).getD false)
    || (rv.header "x-amz-date").isSome
    || (rv.header "x-amz-security-token").isSome

/-- Embeds `RequestView::has_bearer_auth`. -/
def RequestView.has_bearer_auth (rv : RequestView) : Bool :=
  (rv.authorization.map (fun a => strStartsWith a "Bearer ")).getD false

/-- Embeds `RequestView::host_ends_with`. -/
def RequestView.host_ends_with (rv : RequestView) (suffix : String) : Bool :=
  (rv.host.map (fun h => strEndsWith h suffix)).getD false

/-- The OpenAI matcher's host test `host == "api.openai.com"` (absent host
counts as false), used at steps 2 and 3 of `OpenAIProvider::detect`. -/
def RequestView.openaiHost (rv : RequestView) : Bool :=
  (rv.host.map (fun h => h == "api.openai.com")).getD false

/-- The Bedrock matcher's host test: host contains `"bedrock"` and ends
with `".amazonaws.com"` (absent host counts as false). -/
def RequestView.bedrockHost (rv : RequestView) : Bool :=
  (rv.host.map (fun h => strContains h "bedrock" && strEndsWith h ".amazonaws.com")).getD false

/-- The `has_openai_path` test of `OpenAIProvider::detect`, also the step-4
path rule: starts with `/v1/` and contains `/chat`, `/completions` or
`/responses`. -/
def openaiPathMatch (path : String) : Bool :=
  strStartsWith path "/v1/"
    && (strContains path "/chat" || strContains path "/completions"
        || strContains path "/responses")

/-- Embeds `OpenAIProvider::detect` from src/provider/openai.rs. -/
def openaiDetect (rv : RequestView) : Option DetectionResult :=
  if rv.openaiHost then
    some ⟨ProviderKind.OpenAI, Confidence.High, "api.openai.com exact match", "host"⟩
  else if rv.has_bearer_auth && (rv.openaiHost || openaiPathMatch rv.path) then
    some ⟨ProviderKind.OpenAI, Confidence.High, "bearer token with OpenAI context", "auth"⟩
  else if openaiPathMatch rv.path then
    some ⟨ProviderKind.OpenAI, Confidence.Medium, "/v1/ API endpoints", "path"⟩
  else if (rv.header "OpenAI-Organization").isSome then
    some ⟨ProviderKind.OpenAI, Confidence.Low, "OpenAI-Organization header present", "header"⟩
  else
    none

/-- The `has_aws_headers` binding of `BedrockProvider::detect`. -/
def RequestView.hasAwsHeaders (rv : RequestView) : Bool :=
  (rv.header "x-amz-date").isSome
    || (rv.header "x-amzn-trace-id").isSome
    || (rv.header "x-amz-security-token").isSome

/-- Embeds `BedrockProvider::detect` from src/provider/bedrock.rs. -/
def bedrockDetect (rv : RequestView) : Option DetectionResult :=
  if rv.bedrockHost then
    some ⟨ProviderKind.Bedrock, Confidence.High, "bedrock.amazonaws.com host", "host"⟩
  else if rv.has_aws_sigv4 then
    some ⟨ProviderKind.Bedrock, Confidence.High, "AWS Signature Version 4", "auth"⟩
  else if (strContains rv.path "/converse" || strContains rv.path "/invoke"
            || strContains rv.path "/model/")
          && (rv.host_ends_with ".amazonaws.com" || rv.hasAwsHeaders) then
    some ⟨ProviderKind.Bedrock, Confidence.Medium,
      (if rv.host_ends_with ".amazonaws.com" && rv.hasAwsHeaders then
        "Bedrock paths with AWS host + headers"
      else if rv.host_ends_with ".amazonaws.com" then
        "Bedrock paths with AWS host"
      else
        "Bedrock paths with AWS headers"), "path"⟩
  else if rv.hasAwsHeaders && rv.host_ends_with ".amazonaws.com" then
    some ⟨ProviderKind.Bedrock, Confidence.Low, "AWS headers with AWS host", "header"⟩
  else
    none

/-- Best-result update of the registry loop: `None` is replaced, otherwise
the newcomer replaces the incumbent only when `is_better_than`. -/
def updateBest : Option DetectionResult → DetectionResult → Option DetectionResult
  | none, r => some r
  | some cur, r => if r.is_better_than cur then some r else some cur

/-- The provider loop of `ProviderRegistry::detect`: early exit on a
decisive result, otherwise accumulate the best result; at the end return
the best result's kind, or `Unknown` when none was recorded. -/
def runChain (rv : RequestView) :
    List (RequestView → Option DetectionResult) → Option DetectionResult → ProviderKind
  | [], best => (best.map DetectionResult.kind).getD ProviderKind.Unknown
  | m :: ms, best =>
    match m rv with
    | none => runChain rv ms best
    | some r =>
      if r.is_decisive then r.kind
      else runChain rv ms (updateBest best r)

/-- The fixed matcher order `[OpenAIProvider, BedrockProvider]` of
`ProviderRegistry::new`. -/
def providerChain : List (RequestView → Option DetectionResult) :=
  [openaiDetect, bedrockDetect]

/-- Steps 2-4 of `ProviderRegistry::detect` (everything after the
override check). -/
def detectChain (rv : RequestView) : ProviderKind :=
  runChain rv providerChain none

/-- Embeds `ProviderRegistry::detect` from src/provider/registry.rs: override
check on `x-langspec-provider` (lowercased match against the three
recognized tokens, anything else falls through), then the chain. -/
def ProviderRegistry.detect (rv : RequestView) : ProviderKind :=
  match rv.header "x-langspec-provider" with
  | some ov =>
    if rustToLowercase ov == "openai" then ProviderKind.OpenAI
    else if rustToLowercase ov == "bedrock" then ProviderKind.Bedrock
    else if rustToLowercase ov == "unknown" then ProviderKind.Unknown
    else detectChain rv
  | none => detectChain rv

/-- The override header holds one of the three recognized tokens
(case-insensitively). -/
def hasRecognizedOverride (rv : RequestView) : Bool :=
  match rv.header "x-langspec-provider" with
  | some ov =>
    rustToLowercase ov == "openai" || rustToLowercase ov == "bedrock"
      || rustToLowercase ov == "unknown"
  | none => false

/-- The same request with every `x-langspec-provider` entry removed. -/
def eraseOverride (rv : RequestView) : RequestView :=
  { rv with headers := rv.headers.filter (fun p => !(p.1 == "x-langspec-provider")) }

/-- Build a concrete request view from ASCII header strings. -/
def mkView (path : String) (hs : List (String × String)) : RequestView :=
  ⟨"POST", path, hs.map (fun p => (p.1, strBytes p.2))⟩

/-- Concrete view: an `X-Langspec-Provider: OpenAI` override against strong
Bedrock evidence. -/
def rvOverride : RequestView :=
  mkView "/converse"
    [("host", "bedrock-runtime.us-east-1.amazonaws.com"), ("x-langspec-provider", "OpenAI")]

/-- Concrete view: Bedrock host, OpenAI path, and a Bearer token. -/
def rvBedrockHostBearer : RequestView :=
  mkView "/v1/chat/completions"
    [("host", "bedrock.us.amazonaws.com"), ("authorization", "Bearer sk-test")]

/-- Concrete view: Bedrock host with an OpenAI path and nothing else. -/
def rvBedrockHostOpenAIPath : RequestView :=
  mkView "/v1/chat/completions"
    [("host", "bedrock-runtime.us-east-1.amazonaws.com")]

/-- Concrete view: an OpenAI path with no host and no headers. -/
def rvOpenAIPathOnly : RequestView :=
  mkView "/v1/responses" []

/-- Concrete view: SigV4 authorization on the OpenAI host. -/
def rvSigV4OpenAIHost : RequestView :=
  mkView "/p"
    [("host", "api.openai.com"), ("authorization", "AWS4-HMAC-SHA256 Credential=x")]

/-- Concrete view: SigV4 authorization alone, on an OpenAI-shaped path. -/
def rvSigV4Alone : RequestView :=
  mkView "/v1/chat/completions"
    [("authorization", "AWS4-HMAC-SHA256 Credential=abc/123")]

/-- Concrete view: Bedrock-shaped path on a generic host, no AWS signals. -/
def rvGenericInvoke : RequestView :=
  mkView "/bedrock/invoke" [("host", "generic-api.com")]

/-- Concrete view: an invalid override value on an OpenAI request. -/
def rvInvalidOverride : RequestView :=
  mkView "/v1/chat/completions"
    [("host", "api.openai.com"), ("x-langspec-provider", "invalid-provider")]

/-- Concrete view: a path matching both matchers' Medium path rules, with
only an `x-amzn-trace-id` header as AWS corroboration. -/
def rvMediumTie : RequestView :=
  mkView "/v1/chat/invoke" [("x-amzn-trace-id", "trace")]

/-- Concrete view: a Host header whose value is a non-ASCII byte. -/
def rvBadHostBytes : RequestView :=
  ⟨"GET", "/", [("host", [255])]⟩

/-- Concrete view: AWS host plus `x-amzn-trace-id` only (Low branch). -/
def rvLowBedrock : RequestView :=
  mkView "/x" [("host", "foo.amazonaws.com"), ("x-amzn-trace-id", "t")]

/-- The Medium path result of the OpenAI matcher. -/
def oaMedResult : DetectionResult :=
  ⟨ProviderKind.OpenAI, Confidence.Medium, "/v1/ API endpoints", "path"⟩

/-- The Medium path result of the Bedrock matcher with header-only
corroboration. -/
def bdMedResult : DetectionResult :=
  ⟨ProviderKind.Bedrock, Confidence.Medium, "Bedrock paths with AWS headers", "path"⟩

/-- The Low header result of the Bedrock matcher. -/
def bdLowResult : DetectionResult :=
  ⟨ProviderKind.Bedrock, Confidence.Low, "AWS headers with AWS host", "header"⟩

/-! ### Helper lemmas about the matchers and the chain -/

/-- Every result of the OpenAI matcher names `OpenAI`. -/
theorem openai_kind {rv : RequestView} {r : DetectionResult}
    (h : openaiDetect rv = some r) : r.kind = ProviderKind.OpenAI := by
  unfold openaiDetect at h
  repeat' split at h
  all_goals first
    | (injection h with h2; rw [← h2])
    | exact Option.noConfusion h

/-- Every result of the Bedrock matcher names `Bedrock`. -/
theorem bedrock_kind {rv : RequestView} {r : DetectionResult}
    (h : bedrockDetect rv = some r) : r.kind = ProviderKind.Bedrock := by
  unfold bedrockDetect at h
  repeat' split at h
  all_goals first
    | (injection h with h2; rw [← h2])
    | exact Option.noConfusion h

/-- Without a recognized override, `detect` is the matcher chain. -/
theorem detect_eq_chain {rv : RequestView}
    (h : hasRecognizedOverride rv = false) :
    ProviderRegistry.detect rv = detectChain rv := by
  unfold hasRecognizedOverride at h
  unfold ProviderRegistry.detect
  split
  · rename_i ov hov
    rw [hov] at h
    simp only [Bool.or_eq_false_iff] at h
    rw [if_neg (by simp [h.1.1]), if_neg (by simp [h.1.2]), if_neg (by simp [h.2])]
  · rfl

theorem chain_oa_none_bd_none {rv : RequestView}
    (h1 : openaiDetect rv = none) (h2 : bedrockDetect rv = none) :
    detectChain rv = ProviderKind.Unknown := by
  simp [detectChain, providerChain, runChain, h1, h2]

theorem chain_oa_none_bd_some {rv : RequestView} {r : DetectionResult}
    (h1 : openaiDetect rv = none) (h2 : bedrockDetect rv = some r) :
    detectChain rv = r.kind := by
  simp only [detectChain, providerChain, runChain, h1, h2]
  split <;> simp [runChain, updateBest]

theorem chain_oa_decisive {rv : RequestView} {r : DetectionResult}
    (h1 : openaiDetect rv = some r) (h2 : r.is_decisive = true) :
    detectChain rv = r.kind := by
  simp [detectChain, providerChain, runChain, h1, h2]

theorem chain_oa_nd_bd_none {rv : RequestView} {r1 : DetectionResult}
    (h1 : openaiDetect rv = some r1) (hnd : r1.is_decisive = false)
    (h2 : bedrockDetect rv = none) :
    detectChain rv = r1.kind := by
  simp [detectChain, providerChain, runChain, h1, hnd, h2, updateBest]

theorem chain_oa_nd_bd_some {rv : RequestView} {r1 r2 : DetectionResult}
    (h1 : openaiDetect rv = some r1) (hnd : r1.is_decisive = false)
    (h2 : bedrockDetect rv = some r2) :
    detectChain rv =
      if r2.is_decisive then r2.kind
      else if r2.is_better_than r1 then r2.kind else r1.kind := by
  simp only [detectChain, providerChain, runChain, h1, hnd, h2, updateBest,
    Bool.false_eq_true, if_false]
  split
  · rfl
  · split <;> simp [runChain, updateBest]

/-- When the host is not `api.openai.com` and the bearer rule cannot fire,
any OpenAI-matcher result is non-decisive (Medium or Low). -/
theorem openai_not_decisive {rv : RequestView} (h1 : rv.openaiHost = false)
    (h2 : rv.has_bearer_auth = false ∨ openaiPathMatch rv.path = false) :
    ∀ r, openaiDetect rv = some r → r.is_decisive = false := by
  intro r h
  unfold openaiDetect at h
  rw [if_neg (by simp [h1])] at h
  have hcond : (rv.has_bearer_auth && (rv.openaiHost || openaiPathMatch rv.path)) = false := by
    rcases h2 with hb | hp
    · simp [hb]
    · simp [h1, hp]
  rw [if_neg (by simp [hcond])] at h
  repeat' split at h
  all_goals first
    | (injection h with h3; rw [← h3]; decide)
    | exact Option.noConfusion h

/-- With a SigV4 signal the Bedrock matcher yields a decisive Bedrock
result (via the host rule or the auth rule). -/
theorem bedrock_high_of_sigv4 {rv : RequestView} (h : rv.has_aws_sigv4 = true) :
    ∃ r, bedrockDetect rv = some r ∧ r.is_decisive = true ∧ r.kind = ProviderKind.Bedrock := by
  cases hb : rv.bedrockHost
  · refine ⟨⟨ProviderKind.Bedrock, Confidence.High, "AWS Signature Version 4", "auth"⟩,
      ?_, by decide, rfl⟩
    unfold bedrockDetect
    simp [hb, h]
  · refine ⟨⟨ProviderKind.Bedrock, Confidence.High, "bedrock.amazonaws.com host", "host"⟩,
      ?_, by decide, rfl⟩
    unfold bedrockDetect
    simp [hb]

/-- Two initial segments of the same character list start with the same
character. -/
theorem heads_eq {l p1 p2 : List Char} {c1 c2 : Char}
    (h1 : (c1 :: p1).isPrefixOf l = true) (h2 : (c2 :: p2).isPrefixOf l = true) :
    c1 = c2 := by
  cases l with
  | nil => simp [List.isPrefixOf] at h1
  | cons b bs =>
    simp [List.isPrefixOf] at h1 h2
    rw [h1.1, h2.1]

/-- A string starting with `AWS4-HMAC-SHA256` does not start with `Bearer `. -/
theorem aws4_not_bearer {a : String} (h : strStartsWith a "AWS4-HMAC-SHA256" = true) :
    strStartsWith a "Bearer " = false := by
  by_contra hb
  rw [Bool.not_eq_false] at hb
  unfold strStartsWith at h hb
  rw [show "AWS4-HMAC-SHA256".toList = 'A' :: "WS4-HMAC-SHA256".toList from by decide] at h
  rw [show "Bearer ".toList = 'B' :: "earer ".toList from by decide] at hb
  exact absurd (heads_eq h hb) (by decide)

/-- If the OpenAI matcher is non-decisive and the Bedrock matcher is
decisive, the whole detection returns `Bedrock`. -/
theorem detect_bedrock_high {rv : RequestView}
    (hov : hasRecognizedOverride rv = false)
    (h1 : rv.openaiHost = false)
    (h2 : rv.has_bearer_auth = false ∨ openaiPathMatch rv.path = false)
    (hbd : ∃ r, bedrockDetect rv = some r ∧ r.is_decisive = true ∧ r.kind = ProviderKind.Bedrock) :
    ProviderRegistry.detect rv = ProviderKind.Bedrock := by
  rw [detect_eq_chain hov]
  obtain ⟨r2, hr2, hdec, hkind⟩ := hbd
  cases hoa : openaiDetect rv with
  | none => rw [chain_oa_none_bd_some hoa hr2, hkind]
  | some r1 =>
    have hnd := openai_not_decisive h1 h2 r1 hoa
    rw [chain_oa_nd_bd_some hoa hnd hr2, if_pos hdec, hkind]

/-! ### Removing the override header (for the invalid-override claim) -/

theorem eraseOverride_get_ne (rv : RequestView) (k : String)
    (hk : rustToLowercase k ≠ "x-langspec-provider") :
    (eraseOverride rv).headersGet k = rv.headersGet k := by
  unfold eraseOverride RequestView.headersGet
  simp only
  congr 1
  induction rv.headers with
  | nil => rfl
  | cons hd tl ih =>
    by_cases hf : hd.1 = "x-langspec-provider"
    · have hpred : ("x-langspec-provider" == rustToLowercase k) = false := by
        rw [beq_eq_false_iff_ne]
        exact fun h => hk h.symm
      simp [List.filter_cons, List.find?_cons, hf, hpred, ih]
    · rw [List.filter_cons, if_pos (by simp [hf]), List.find?_cons, List.find?_cons]
      cases hp : (hd.1 == rustToLowercase k)
      · simpa [hp] using ih
      · simp [hp]

theorem eraseOverride_get_self (rv : RequestView) :
    (eraseOverride rv).headersGet "x-langspec-provider" = none := by
  unfold eraseOverride RequestView.headersGet
  simp only
  have hlow : rustToLowercase "x-langspec-provider" = "x-langspec-provider" := by decide
  have hnone : List.find? (fun p => p.1 == rustToLowercase "x-langspec-provider")
      (rv.headers.filter (fun p => !(p.1 == "x-langspec-provider"))) = none := by
    rw [List.find?_eq_none]
    intro p hp
    have hmem := List.of_mem_filter hp
    simp only [Bool.not_eq_true'] at hmem
    simp [hlow, hmem]
  rw [hnone]
  rfl

theorem eraseOverride_header_ne (rv : RequestView) (k : String)
    (hk : rustToLowercase k ≠ "x-langspec-provider") :
    (eraseOverride rv).header k = rv.header k := by
  unfold RequestView.header
  rw [eraseOverride_get_ne rv k hk]

theorem eraseOverride_path (rv : RequestView) : (eraseOverride rv).path = rv.path := rfl

theorem eraseOverride_openai (rv : RequestView) :
    openaiDetect (eraseOverride rv) = openaiDetect rv := by
  have hh := eraseOverride_header_ne rv "host" (by decide)
  have ha := eraseOverride_header_ne rv "authorization" (by decide)
  have ho := eraseOverride_header_ne rv "OpenAI-Organization" (by decide)
  simp only [openaiDetect, RequestView.openaiHost, RequestView.host,
    RequestView.has_bearer_auth, RequestView.authorization, eraseOverride_path, hh, ha, ho]

theorem eraseOverride_bedrock (rv : RequestView) :
    bedrockDetect (eraseOverride rv) = bedrockDetect rv := by
  have hh := eraseOverride_header_ne rv "host" (by decide)
  have ha := eraseOverride_header_ne rv "authorization" (by decide)
  have hd := eraseOverride_header_ne rv "x-amz-date" (by decide)
  have ht := eraseOverride_header_ne rv "x-amzn-trace-id" (by decide)
  have hs := eraseOverride_header_ne rv "x-amz-security-token" (by decide)
  simp only [bedrockDetect, RequestView.bedrockHost, RequestView.host,
    RequestView.has_aws_sigv4, RequestView.authorization, RequestView.host_ends_with,
    RequestView.hasAwsHeaders, eraseOverride_path, hh, ha, hd, ht, hs]

theorem eraseOverride_chain (rv : RequestView) :
    detectChain (eraseOverride rv) = detectChain rv := by
  simp only [detectChain, providerChain, runChain, eraseOverride_openai, eraseOverride_bedrock]

/-! ### Claim theorems -/

/-- C1: for every request view, `ProviderRegistry::detect` terminates and
returns exactly one of the three `ProviderKind` values; the embedded
function is total, so no input produces an absent result. -/
theorem detect_total (rv : RequestView) :
    ProviderRegistry.detect rv = ProviderKind.OpenAI ∨
    ProviderRegistry.detect rv = ProviderKind.Bedrock ∨
    ProviderRegistry.detect rv = ProviderKind.Unknown := by
  cases h : ProviderRegistry.detect rv
  · exact Or.inl rfl
  · exact Or.inr (Or.inl rfl)
  · exact Or.inr (Or.inr rfl)

/-- C2: whenever the `x-langspec-provider` header value lowercases to one
of the three recognized tokens, `detect` returns the corresponding kind,
regardless of every other part of the request. -/
theorem override_determines (rv : RequestView) (v : String)
    (h : rv.header "x-langspec-provider" = some v) :
    (rustToLowercase v = "openai" → ProviderRegistry.detect rv = ProviderKind.OpenAI) ∧
    (rustToLowercase v = "bedrock" → ProviderRegistry.detect rv = ProviderKind.Bedrock) ∧
    (rustToLowercase v = "unknown" → ProviderRegistry.detect rv = ProviderKind.Unknown) := by
  refine ⟨fun hv => ?_, fun hv => ?_, fun hv => ?_⟩ <;>
    (unfold ProviderRegistry.detect; simp [h, hv])

theorem override_determines_witness :
    ProviderRegistry.detect rvOverride = ProviderKind.OpenAI :=
  (override_determines rvOverride "OpenAI" (by decide)).1 (by decide)

/-- C3 counterexample: a request whose host contains `bedrock` and ends
with `.amazonaws.com` and that carries no recognized override, yet
`detect` returns `OpenAI` (a Bearer token on an OpenAI-shaped path fires
the OpenAI matcher's High-confidence auth rule before the Bedrock matcher
runs). -/
theorem bedrock_host_beats_path_cex :
    hasRecognizedOverride rvBedrockHostBearer = false ∧
    rvBedrockHostBearer.host = some "bedrock.us.amazonaws.com" ∧
    strContains "bedrock.us.amazonaws.com" "bedrock" = true ∧
    strEndsWith "bedrock.us.amazonaws.com" ".amazonaws.com" = true ∧
    ProviderRegistry.detect rvBedrockHostBearer = ProviderKind.OpenAI := by
  refine ⟨by decide, by decide, by decide, by decide, by decide⟩

/-- C3 (amended): with no recognized override, a host containing `bedrock`
and ending `.amazonaws.com` makes `detect` return `Bedrock` regardless of
the path — provided the request does not combine a Bearer Authorization
with an OpenAI-shaped path (which triggers the OpenAI matcher's earlier
High-confidence auth rule). -/
theorem bedrock_host_beats_path (rv : RequestView) (h : String)
    (hov : hasRecognizedOverride rv = false)
    (hhost : rv.host = some h)
    (hb : strContains h "bedrock" = true)
    (he : strEndsWith h ".amazonaws.com" = true)
    (hnb : ¬(rv.has_bearer_auth = true ∧ openaiPathMatch rv.path = true)) :
    ProviderRegistry.detect rv = ProviderKind.Bedrock := by
  have hne : h ≠ "api.openai.com" := by
    intro heq
    rw [heq] at he
    exact absurd he (by decide)
  have h1 : rv.openaiHost = false := by
    unfold RequestView.openaiHost
    rw [hhost]
    simp [hne]
  have h2 : rv.has_bearer_auth = false ∨ openaiPathMatch rv.path = false := by
    cases hb2 : rv.has_bearer_auth
    · exact Or.inl rfl
    · cases hp2 : openaiPathMatch rv.path
      · exact Or.inr rfl
      · exact absurd ⟨hb2, hp2⟩ hnb
  have hbd : rv.bedrockHost = true := by
    unfold RequestView.bedrockHost
    rw [hhost]
    simp [hb, he]
  refine detect_bedrock_high hov h1 h2 ?_
  refine ⟨⟨ProviderKind.Bedrock, Confidence.High, "bedrock.amazonaws.com host", "host"⟩,
    ?_, by decide, rfl⟩
  unfold bedrockDetect
  simp [hbd]

theorem bedrock_host_beats_path_witness :
    ProviderRegistry.detect rvBedrockHostOpenAIPath = ProviderKind.Bedrock :=
  bedrock_host_beats_path rvBedrockHostOpenAIPath "bedrock-runtime.us-east-1.amazonaws.com"
    (by decide) (by decide) (by decide) (by decide) (by decide)

/-- C4 counterexample: a request whose path is `/v1/chat/completions` and
that carries no recognized override, yet `detect` returns `Bedrock`
because the host matches the Bedrock matcher's High-confidence host rule
— so the path does not force `OpenAI` for every host value. -/
theorem openai_path_any_host_cex :
    hasRecognizedOverride rvBedrockHostOpenAIPath = false ∧
    rvBedrockHostOpenAIPath.path = "/v1/chat/completions" ∧
    ProviderRegistry.detect rvBedrockHostOpenAIPath = ProviderKind.Bedrock := by
  refine ⟨by decide, by decide, by decide⟩

/-- C4 (amended): with no recognized override, a path of
`/v1/chat/completions`, `/v1/completions` or `/v1/responses` makes
`detect` return `OpenAI` for any host (or absent host) that does not
match the Bedrock host rule, provided the request carries no AWS SigV4
signal; and `/v1/models` does not match the OpenAI matcher's path rule. -/
theorem openai_path_detects_openai (rv : RequestView)
    (hov : hasRecognizedOverride rv = false)
    (hpath : rv.path = "/v1/chat/completions" ∨ rv.path = "/v1/completions"
      ∨ rv.path = "/v1/responses")
    (hbh : rv.bedrockHost = false)
    (hsig : rv.has_aws_sigv4 = false) :
    ProviderRegistry.detect rv = ProviderKind.OpenAI ∧ openaiPathMatch "/v1/models" = false := by
  refine ⟨?_, by decide⟩
  have hpm : openaiPathMatch rv.path = true := by
    rcases hpath with hp | hp | hp <;> (rw [hp]; decide)
  rw [detect_eq_chain hov]
  cases hoh : rv.openaiHost
  · cases hba : rv.has_bearer_auth
    · have hoa : openaiDetect rv = some oaMedResult := by
        unfold openaiDetect oaMedResult
        simp [hoh, hba, hpm]
      have hbd : bedrockDetect rv = none ∨ bedrockDetect rv = some bdLowResult := by
        have hpc : (strContains rv.path "/converse" || strContains rv.path "/invoke"
            || strContains rv.path "/model/") = false := by
          rcases hpath with hp | hp | hp <;> (rw [hp]; decide)
        unfold bedrockDetect bdLowResult
        rw [if_neg (by simp [hbh]), if_neg (by simp [hsig]), if_neg (by simp [hpc])]
        cases hx : (rv.hasAwsHeaders && rv.host_ends_with ".amazonaws.com")
        · exact Or.inl (by rw [if_neg (by simp [hx])])
        · exact Or.inr (by rw [if_pos (by simp [hx])])
      rcases hbd with hbd | hbd
      · rw [chain_oa_nd_bd_none hoa (by decide) hbd]
        decide
      · rw [chain_oa_nd_bd_some hoa (by decide) hbd]
        decide
    · have hoa : openaiDetect rv = some
          ⟨ProviderKind.OpenAI, Confidence.High, "bearer token with OpenAI context", "auth"⟩ := by
        unfold openaiDetect
        simp [hoh, hba, hpm]
      rw [chain_oa_decisive hoa (by decide)]
  · have hoa : openaiDetect rv = some
        ⟨ProviderKind.OpenAI, Confidence.High, "api.openai.com exact match", "host"⟩ := by
      unfold openaiDetect
      simp [hoh]
    rw [chain_oa_decisive hoa (by decide)]

theorem openai_path_detects_openai_witness :
    ProviderRegistry.detect rvOpenAIPathOnly = ProviderKind.OpenAI ∧
    openaiPathMatch "/v1/models" = false :=
  openai_path_detects_openai rvOpenAIPathOnly (by decide) (by decide) (by decide) (by decide)

/-- C5 counterexample: a request whose only authentication evidence is a
SigV4 Authorization header (no `x-amz-*` headers, no Bearer token, no
`OpenAI-Organization`) and that carries no recognized override, yet
`detect` returns `OpenAI` because the host is `api.openai.com` — so the
SigV4 rule does not win for every host. -/
theorem sigv4_alone_bedrock_cex :
    hasRecognizedOverride rvSigV4OpenAIHost = false ∧
    rvSigV4OpenAIHost.authorization = some "AWS4-HMAC-SHA256 Credential=x" ∧
    strStartsWith "AWS4-HMAC-SHA256 Credential=x" "AWS4-HMAC-SHA256" = true ∧
    rvSigV4OpenAIHost.header "x-amz-date" = none ∧
    rvSigV4OpenAIHost.header "x-amzn-trace-id" = none ∧
    rvSigV4OpenAIHost.header "x-amz-security-token" = none ∧
    rvSigV4OpenAIHost.has_bearer_auth = false ∧
    rvSigV4OpenAIHost.header "OpenAI-Organization" = none ∧
    ProviderRegistry.detect rvSigV4OpenAIHost = ProviderKind.OpenAI := by
  refine ⟨by decide, by decide, by decide, by decide, by decide, by decide,
    by decide, by decide, by decide⟩

/-- C5 (amended): with no recognized override, an Authorization header
starting with `AWS4-HMAC-SHA256` as the only authentication evidence
(no `x-amz-*` headers, no `OpenAI-Organization`) makes `detect` return
`Bedrock` regardless of the path, and regardless of the host as long as
the host is not `api.openai.com` (the Bedrock result comes from the
SigV4 auth rule unless the host itself matches the Bedrock host rule). -/
theorem sigv4_detects_bedrock (rv : RequestView) (a : String)
    (hov : hasRecognizedOverride rv = false)
    (ha : rv.authorization = some a)
    (hs : strStartsWith a "AWS4-HMAC-SHA256" = true)
    (hdate : rv.header "x-amz-date" = none)
    (htrace : rv.header "x-amzn-trace-id" = none)
    (htok : rv.header "x-amz-security-token" = none)
    (horg : rv.header "OpenAI-Organization" = none)
    (hhost : rv.openaiHost = false) :
    ProviderRegistry.detect rv = ProviderKind.Bedrock := by
  have hbear : rv.has_bearer_auth = false := by
    unfold RequestView.has_bearer_auth
    rw [ha]
    simp [aws4_not_bearer hs]
  have hsig : rv.has_aws_sigv4 = true := by
    unfold RequestView.has_aws_sigv4
    rw [ha]
    simp [hs]
  exact detect_bedrock_high hov hhost (Or.inl hbear) (bedrock_high_of_sigv4 hsig)

theorem sigv4_detects_bedrock_witness :
    ProviderRegistry.detect rvSigV4Alone = ProviderKind.Bedrock :=
  sigv4_detects_bedrock rvSigV4Alone "AWS4-HMAC-SHA256 Credential=abc/123"
    (by decide) (by decide) (by decide) (by decide) (by decide) (by decide)
    (by decide) (by decide)

/-- C6: with no recognized override, no Authorization, no
`OpenAI-Organization`, none of the three AWS-context headers, a host that
neither equals `api.openai.com` nor ends with `.amazonaws.com` (or no
host), and a path that does not start with `/v1/` but contains
`/converse`, `/invoke` or `/model/`, `detect` returns `Unknown`: a
Bedrock-shaped path on a generic host with no AWS corroboration never
classifies as Bedrock. -/
theorem bedrock_path_generic_unknown (rv : RequestView)
    (hov : hasRecognizedOverride rv = false)
    (hauth : rv.authorization = none)
    (horg : rv.header "OpenAI-Organization" = none)
    (hdate : rv.header "x-amz-date" = none)
    (htrace : rv.header "x-amzn-trace-id" = none)
    (htok : rv.header "x-amz-security-token" = none)
    (hoh : rv.openaiHost = false)
    (hah : rv.host_ends_with ".amazonaws.com" = false)
    (hv1 : strStartsWith rv.path "/v1/" = false)
    (hbp : strContains rv.path "/converse" = true ∨ strContains rv.path "/invoke" = true
      ∨ strContains rv.path "/model/" = true) :
    ProviderRegistry.detect rv = ProviderKind.Unknown := by
  have hpm : openaiPathMatch rv.path = false := by
    unfold openaiPathMatch
    simp [hv1]
  have hbear : rv.has_bearer_auth = false := by
    unfold RequestView.has_bearer_auth
    rw [hauth]
    rfl
  have hoa : openaiDetect rv = none := by
    unfold openaiDetect
    simp [hoh, hbear, hpm, horg]
  have hsig : rv.has_aws_sigv4 = false := by
    unfold RequestView.has_aws_sigv4
    rw [hauth, hdate, htok]
    rfl
  have hendsall : ∀ h, rv.host = some h → strEndsWith h ".amazonaws.com" = false := by
    intro h hh
    unfold RequestView.host_ends_with at hah
    rw [hh] at hah
    simpa using hah
  have hbh : rv.bedrockHost = false := by
    unfold RequestView.bedrockHost
    cases hh : rv.host
    · rfl
    · rename_i h
      simp [hendsall h hh]
  have hhdrs : rv.hasAwsHeaders = false := by
    unfold RequestView.hasAwsHeaders
    rw [hdate, htrace, htok]
    rfl
  have hbd : bedrockDetect rv = none := by
    unfold bedrockDetect
    simp [hbh, hsig, hah, hhdrs]
  rw [detect_eq_chain hov, chain_oa_none_bd_none hoa hbd]

theorem bedrock_path_generic_unknown_witness :
    ProviderRegistry.detect rvGenericInvoke = ProviderKind.Unknown :=
  bedrock_path_generic_unknown rvGenericInvoke (by decide) (by decide) (by decide)
    (by decide) (by decide) (by decide) (by decide) (by decide) (by decide)
    (Or.inr (Or.inl (by decide)))

/-- C7: an `x-langspec-provider` value that lowercases to none of the
three recognized tokens leaves `detect` with exactly the result it gives
on the otherwise-identical request with the header removed — an invalid
override is observationally equivalent to no override, and in particular
never forces `Unknown`. -/
theorem invalid_override_equiv_absent (rv : RequestView) (ov : String)
    (hov : rv.header "x-langspec-provider" = some ov)
    (h1 : rustToLowercase ov ≠ "openai")
    (h2 : rustToLowercase ov ≠ "bedrock")
    (h3 : rustToLowercase ov ≠ "unknown") :
    ProviderRegistry.detect rv = ProviderRegistry.detect (eraseOverride rv) := by
  have hrec : hasRecognizedOverride rv = false := by
    simp only [hasRecognizedOverride, hov]
    simp [Bool.or_eq_false_iff, beq_eq_false_iff_ne, h1, h2, h3]
  rw [detect_eq_chain hrec]
  have herase : (eraseOverride rv).header "x-langspec-provider" = none := by
    unfold RequestView.header
    rw [eraseOverride_get_self]
    rfl
  have hdet2 : ProviderRegistry.detect (eraseOverride rv) = detectChain (eraseOverride rv) := by
    unfold ProviderRegistry.detect
    rw [herase]
  rw [hdet2, eraseOverride_chain]

theorem invalid_override_equiv_absent_witness :
    ProviderRegistry.detect rvInvalidOverride =
      ProviderRegistry.detect (eraseOverride rvInvalidOverride) :=
  invalid_override_equiv_absent rvInvalidOverride "invalid-provider"
    (by decide) (by decide) (by decide) (by decide)

/-- C8: a later non-decisive result replaces the running best result only
under strictly greater confidence, so on an equal-confidence (non-High)
tie between the OpenAI and Bedrock matchers neither replaces the other
and `detect` returns `OpenAI`, the first matcher in the fixed order. -/
theorem equal_confidence_first_wins (rv : RequestView) (r1 r2 : DetectionResult)
    (hov : hasRecognizedOverride rv = false)
    (h1 : openaiDetect rv = some r1)
    (h2 : bedrockDetect rv = some r2)
    (heq : r1.confidence = r2.confidence)
    (hnh : r1.confidence ≠ Confidence.High) :
    r2.is_better_than r1 = false ∧ r1.is_better_than r2 = false ∧
    ProviderRegistry.detect rv = ProviderKind.OpenAI := by
  have hb1 : r2.is_better_than r1 = false := by
    unfold DetectionResult.is_better_than
    rw [heq]
    simp
  have hb2 : r1.is_better_than r2 = false := by
    unfold DetectionResult.is_better_than
    rw [heq]
    simp
  have hnd1 : r1.is_decisive = false := by
    unfold DetectionResult.is_decisive
    exact decide_eq_false hnh
  have hnd2 : r2.is_decisive = false := by
    unfold DetectionResult.is_decisive
    rw [← heq]
    exact decide_eq_false hnh
  refine ⟨hb1, hb2, ?_⟩
  rw [detect_eq_chain hov, chain_oa_nd_bd_some h1 hnd1 h2, hnd2]
  simp [hb1, openai_kind h1]

theorem equal_confidence_first_wins_witness :
    bdMedResult.is_better_than oaMedResult = false ∧
    oaMedResult.is_better_than bdMedResult = false ∧
    ProviderRegistry.detect rvMediumTie = ProviderKind.OpenAI :=
  equal_confidence_first_wins rvMediumTie oaMedResult bdMedResult
    (by decide) (by decide) (by decide) (by decide) (by decide)

/-- C9: a header entry whose value bytes `HeaderValue::to_str` rejects is
returned as `none` by `RequestView::header`, and likewise by
`RequestView::host` when it is the Host entry — a malformed value behaves
exactly like an absent header. -/
theorem bad_header_value_absent (rv : RequestView) (key : String) (bs : List Nat)
    (hget : rv.headersGet key = some bs)
    (hbad : bs.all isVisibleAscii = false) :
    rv.header key = none ∧
    (rv.headersGet "host" = some bs → rv.host = none) := by
  have hnone : headerValueToStr bs = none := by
    unfold headerValueToStr
    rw [hbad]
    rfl
  constructor
  · unfold RequestView.header
    rw [hget]
    simp [hnone]
  · intro hh
    unfold RequestView.host RequestView.header
    rw [hh]
    simp [hnone]

theorem bad_header_value_absent_witness :
    rvBadHostBytes.header "host" = none ∧
    (rvBadHostBytes.headersGet "host" = some [255] → rvBadHostBytes.host = none) :=
  bad_header_value_absent rvBadHostBytes "host" [255] (by decide) (by decide)

/-- C10: whenever the Bedrock matcher returns a Low-confidence result, the
`x-amzn-trace-id` header is present while `x-amz-date` and
`x-amz-security-token` are absent and the Authorization value (if any)
does not start with `AWS4-HMAC-SHA256`: the Low branch can only fire
through `x-amzn-trace-id`, every other AWS-context signal having already
triggered the High-confidence SigV4 rule. -/
theorem bedrock_low_only_trace (rv : RequestView) (r : DetectionResult)
    (h : bedrockDetect rv = some r)
    (hl : r.confidence = Confidence.Low) :
    (rv.header "x-amzn-trace-id").isSome = true ∧
    rv.header "x-amz-date" = none ∧
    rv.header "x-amz-security-token" = none ∧
    (rv.authorization.map (fun a => strStartsWith a "AWS4-HMAC-SHA256")).getD false = false := by
  unfold bedrockDetect at h
  by_cases h1 : rv.bedrockHost = true
  · rw [if_pos h1] at h
    injection h with h2
    rw [← h2] at hl
    exact absurd hl (by decide)
  · rw [if_neg h1] at h
    by_cases h2 : rv.has_aws_sigv4 = true
    · rw [if_pos h2] at h
      injection h with h3
      rw [← h3] at hl
      exact absurd hl (by decide)
    · rw [if_neg h2] at h
      have hsig : rv.has_aws_sigv4 = false := by
        simpa using h2
      unfold RequestView.has_aws_sigv4 at hsig
      simp only [Bool.or_eq_false_iff] at hsig
      obtain ⟨⟨hauth, hdate⟩, htok⟩ := hsig
      have hdate2 : rv.header "x-amz-date" = none := by
        cases hx : rv.header "x-amz-date"
        · rfl
        · rw [hx] at hdate
          exact absurd hdate (by simp)
      have htok2 : rv.header "x-amz-security-token" = none := by
        cases hx : rv.header "x-amz-security-token"
        · rfl
        · rw [hx] at htok
          exact absurd htok (by simp)
      by_cases h3 : ((strContains rv.path "/converse" || strContains rv.path "/invoke"
          || strContains rv.path "/model/")
          && (rv.host_ends_with ".amazonaws.com" || rv.hasAwsHeaders)) = true
      · rw [if_pos h3] at h
        injection h with h4
        rw [← h4] at hl
        simp at hl
      · rw [if_neg h3] at h
        by_cases h4 : (rv.hasAwsHeaders && rv.host_ends_with ".amazonaws.com") = true
        · rw [if_pos h4] at h
          simp only [Bool.and_eq_true] at h4
          have hhdrs : rv.hasAwsHeaders = true := h4.1
          unfold RequestView.hasAwsHeaders at hhdrs
          simp only [hdate2, htok2, Option.isSome_none, Bool.false_or,
            Bool.or_false] at hhdrs
          exact ⟨hhdrs, hdate2, htok2, hauth⟩
        · rw [if_neg h4] at h
          exact Option.noConfusion h

theorem bedrock_low_only_trace_witness :
    (rvLowBedrock.header "x-amzn-trace-id").isSome = true ∧
    rvLowBedrock.header "x-amz-date" = none ∧
    rvLowBedrock.header "x-amz-security-token" = none ∧
    (rvLowBedrock.authorization.map
      (fun a => strStartsWith a "AWS4-HMAC-SHA256")).getD false = false :=
  bedrock_low_only_trace rvLowBedrock bdLowResult (by decide) (by decide)
